import Mathlib

/-!
Verification of the request-management workflow (kitchenartsandletters/request-mgmt).

This file gives a shallow embedding of the status-transition and validation
engine of the repository:

* the field validators of `src/app.js` (`validateISBN`, `isValidISBN13`,
  `isValidISBN10`, `validateOrderNumber`) over JavaScript strings, modelled as
  `List Char`;
* the date-boundary checks of the Slack view handlers
  (`required_fields_submission`, `mark_as_ordered_submission`) over day
  numbers (a date at local midnight is one integer; adding a day adds 1);
* the `UnifiedEventLogger` class of `integrations/services/unifiedEventLogger.js`
  (the type registry `REQUEST_TYPES` / `REQUIRED_FIELDS`, the validators
  `validateStatusTransition`, `validateRequiredFields`,
  `validateRequiredFieldsForType`, and the stateful operation
  `updateRequestStatus`), with the MongoDB `requests` collection, the MongoDB
  `events` collection and the flat-file request logs modelled as explicit
  state.

JavaScript objects used as string-keyed maps are modelled as association
lists read through `lookupObj` (first binding wins, as JS property lookup is
single-valued).  A JS field value that is absent or falsy (for string fields:
`undefined` or `""`) is modelled as `lookupObj` returning `none` or
`some ""`; `truthy` captures the JS truthiness test used by the code.
-/

namespace RequestMgmt

/-- Lookup in a JS object modelled as an association list: the first binding
for the key wins, a missing key is `none` (JS `undefined`). -/
def lookupObj {α : Type} : List (String × α) → String → Option α
  | [], _ => none
  | (k, v) :: rest, key => if k == key then some v else lookupObj rest key

/-- JS truthiness of an optional string field value: `undefined` and the
empty string are falsy, every other string is truthy. -/
def truthy : Option String → Bool
  | some v => !v.isEmpty
  | none => false

/-- Remove every binding of a key from a field bag. -/
def eraseKey (bag : List (String × String)) (f : String) : List (String × String) :=
  bag.filter (fun p => !(p.1 == f))

/-! ## Validators (src/app.js) -/

/-- A character matched by the JS regex class `\s` (the whitespace the
source strips from ISBNs and order numbers). -/
def isJsSpace (c : Char) : Bool :=
  c == ' ' || c == '\t' || c == '\n' || c == '\r' || c == '\x0b' || c == '\x0c'

/-- JS `parseInt(c, 10)` on a decimal digit character. -/
def digitVal (c : Char) : Nat := c.toNat - 48

/-- `app.js` preprocessing `isbn.replace(/[-\s]/g, '')`: strip hyphens and
whitespace. -/
def cleanISBNChars (s : List Char) : List Char :=
  s.filter (fun c => !(c == '-' || isJsSpace c))

/-- `isValidISBN13` from `app.js`: weighted sum with weights alternating
1, 3 over the first 12 digits; the check digit `(10 - sum % 10) % 10` must
equal digit 13. -/
def isValidISBN13 (isbn : List Char) : Bool :=
  let sum := (List.range 12).foldl
    (fun acc i => acc + (if i % 2 == 0 then 1 else 3) * digitVal (isbn.getD i '0')) 0
  (10 - sum % 10) % 10 == digitVal (isbn.getD 12 '0')

/-- `isValidISBN10` from `app.js`: weights 10 down to 2 over the first 9
digits, plus the check digit (the character `X`, upper- or lower-case,
counts as 10); the total must be divisible by 11. -/
def isValidISBN10 (isbn : List Char) : Bool :=
  let sum := (List.range 9).foldl
    (fun acc i => acc + (10 - i) * digitVal (isbn.getD i '0')) 0
  let checkDigit := if isbn.getD 9 '0' == 'X' || isbn.getD 9 '0' == 'x' then 10
    else digitVal (isbn.getD 9 '0')
  (sum + checkDigit) % 11 == 0

/-- Result record of the `app.js` validators: `{ valid: bool, error?: string }`. -/
structure VResult where
  valid : Bool
  error : Option String
deriving Repr, DecidableEq

/-- `validateISBN` from `app.js`.  The input is cleaned of hyphens and
whitespace; an empty result is rejected; an all-digit result must be a
13-digit ISBN starting with 978/979 with a valid ISBN-13 checksum, or a
10-digit ISBN with a valid ISBN-10 checksum; every other length is
rejected; any input that is not all digits is accepted as a custom SKU. -/
def validateISBN (s : List Char) : VResult :=
  let cleanISBN := cleanISBNChars s
  if cleanISBN.isEmpty then
    { valid := false, error := some "ISBN cannot be empty" }
  else if cleanISBN.all Char.isDigit then
    if cleanISBN.length == 13 then
      if !((['9', '7', '8'].isPrefixOf cleanISBN) || (['9', '7', '9'].isPrefixOf cleanISBN)) then
        { valid := false, error := some "ISBN-13 must start with 978 or 979" }
      else if !isValidISBN13 cleanISBN then
        { valid := false, error := some "Invalid ISBN-13 checksum" }
      else
        { valid := true, error := none }
    else if cleanISBN.length == 10 then
      if !isValidISBN10 cleanISBN then
        { valid := false, error := some "Invalid ISBN-10 checksum" }
      else
        { valid := true, error := none }
    else
      { valid := false, error := some "Numeric ISBN must be either 10 or 13 digits long" }
  else
    { valid := true, error := none }

/-- The regex `^D\d+$` of `validateOrderNumber`: `D` followed by one or
more digits. -/
def matchesDraftOrder : List Char → Bool
  | c :: rest => c == 'D' && (!rest.isEmpty && rest.all Char.isDigit)
  | [] => false

/-- The regex `^\d{5}$` of `validateOrderNumber`: exactly five digits. -/
def matchesFiveDigits (l : List Char) : Bool :=
  l.length == 5 && l.all Char.isDigit

/-- The regex `^1\d{5,}$` of `validateOrderNumber`: the digit `1` followed
by five or more digits. -/
def matchesExtendedOrder : List Char → Bool
  | c :: rest => c == '1' && (decide (5 ≤ rest.length) && rest.all Char.isDigit)
  | [] => false

/-- `validateOrderNumber` from `app.js`: strip whitespace, accept draft
orders (`D` + digits), plain 5-digit numbers, and extended numbers (a `1`
followed by at least five more digits); reject everything else with a
message naming the three accepted shapes. -/
def validateOrderNumber (s : List Char) : VResult :=
  let cleanOrderNumber := s.filter (fun c => !isJsSpace c)
  if matchesDraftOrder cleanOrderNumber then
    { valid := true, error := none }
  else if matchesFiveDigits cleanOrderNumber then
    { valid := true, error := none }
  else if matchesExtendedOrder cleanOrderNumber then
    { valid := true, error := none }
  else
    { valid := false,
      error := some "Order number must be either: 5 digits, more than 5 digits starting with '1', or start with 'D' followed by numbers" }

/-! ## Date-boundary checks of the Slack view handlers (src/app.js)

Dates truncated to local midnight are modelled as integer day numbers:
`setHours(0,0,0,0)` is the truncation, `setDate(getDate() + k)` adds `k`. -/

/-- `required_fields_submission` (app.js): for a transition into RECEIVED
the arrival date is rejected when it is `>=` tomorrow, where tomorrow is
`today.getDate() + 1` at midnight. -/
def rfArrivalDateError (selectedDate today : Int) : Option String :=
  if selectedDate ≥ today + 1 then
    some "Arrival date must be today or earlier, not a future date"
  else none

/-- `required_fields_submission` (app.js): the estimated arrival date is
rejected when it is `<` tomorrow, where tomorrow is `today.getDate() + 1`
at midnight. -/
def rfEstimatedArrivalError (selectedDate today : Int) : Option String :=
  if selectedDate < today + 1 then
    some "Estimated arrival date must be tomorrow or later"
  else none

/-- `mark_as_ordered_submission` (app.js): the estimated arrival date is
rejected when it is `<` the handler's `tomorrow` variable, which that
handler computes as `today.getDate() + 0` — i.e. as today itself. -/
def maoEstimatedArrivalError (selectedDate today : Int) : Option String :=
  if selectedDate < today + 0 then
    some "Estimated arrival date must be tomorrow or later"
  else none

/-! ## UnifiedEventLogger (integrations/services/unifiedEventLogger.js) -/

/-- Per-type configuration of `UnifiedEventLogger.REQUEST_TYPES`: possible
statuses, the status-transition table, and the required fields per target
status. -/
structure TypeConfig where
  possibleStatuses : List String
  statusTransitions : List (String × List String)
  requiredFieldsPerStatus : List (String × List String)
deriving Repr, DecidableEq

/-- The common status flow `COMMON_STATUSES`. -/
def COMMON_STATUSES : List String :=
  ["NEW", "ORDERED", "RECEIVED", "NOTIFIED", "PAID", "COMPLETED", "CANCELLED"]

/-- `IMPROVED_TRANSITIONS`: the transition table used by every request
type except `book_hold`. -/
def IMPROVED_TRANSITIONS : List (String × List String) :=
  [("NEW", ["ORDERED", "CANCELLED"]),
   ("ORDERED", ["RECEIVED", "CANCELLED"]),
   ("RECEIVED", ["NOTIFIED", "CANCELLED"]),
   ("NOTIFIED", ["PAID", "CANCELLED"]),
   ("PAID", ["COMPLETED", "CANCELLED"]),
   ("COMPLETED", []),
   ("CANCELLED", [])]

/-- `BOOK_HOLD_TRANSITIONS`: the reduced transition table of `book_hold`. -/
def BOOK_HOLD_TRANSITIONS : List (String × List String) :=
  [("NEW", ["PAID", "CANCELLED"]),
   ("PAID", ["COMPLETED", "CANCELLED"]),
   ("COMPLETED", []),
   ("CANCELLED", [])]

/-- `UnifiedEventLogger.REQUIRED_FIELDS`: required creation fields per
request type. -/
def REQUIRED_FIELDS : List (String × List String) :=
  [("special_order", ["customerName", "customerContact", "vendorPublisher", "details", "dateNeeded"]),
   ("book_hold", ["customerName", "customerContact", "isbn", "details"]),
   ("backorder_request", ["customerName", "customerContact", "isbn", "details", "dateNeeded"]),
   ("out_of_print", ["customerName", "customerContact", "vendorPublisher", "details", "dateNeeded", "condition"]),
   ("bulk_order", ["customerName", "customerContact", "isbn", "details", "dateNeeded"]),
   ("personalization", ["customerName", "customerContact", "isbn", "details", "dateNeeded"])]

/-- `UnifiedEventLogger.REQUEST_TYPES`.  `app.js` re-assigns
`REQUEST_TYPES.book_hold.requiredFieldsPerStatus.PAID` at startup to
`['payment_method', 'order_number']`, the very value the constructor
already set, so the registry below is the configuration in force. -/
def REQUEST_TYPES : List (String × TypeConfig) :=
  [("special_order",
    { possibleStatuses := COMMON_STATUSES,
      statusTransitions := IMPROVED_TRANSITIONS,
      requiredFieldsPerStatus :=
        [("ORDERED", ["ordered_by", "order_method", "estimated_arrival"]),
         ("RECEIVED", ["arrival_date"]),
         ("NOTIFIED", ["notification_method", "notification_date"]),
         ("PAID", ["payment_method", "order_number"]),
         ("COMPLETED", ["completion_date"])] }),
   ("book_hold",
    { possibleStatuses := COMMON_STATUSES,
      statusTransitions := BOOK_HOLD_TRANSITIONS,
      requiredFieldsPerStatus :=
        [("PAID", ["payment_method", "order_number"]),
         ("COMPLETED", ["completion_date"])] }),
   ("backorder_request",
    { possibleStatuses := COMMON_STATUSES,
      statusTransitions := IMPROVED_TRANSITIONS,
      requiredFieldsPerStatus :=
        [("ORDERED", ["ordered_by", "order_method", "estimated_arrival"]),
         ("RECEIVED", ["arrival_date"]),
         ("NOTIFIED", ["notification_method", "notification_date"]),
         ("PAID", ["payment_method", "order_number"]),
         ("COMPLETED", ["completion_date"])] }),
   ("out_of_print",
    { possibleStatuses := COMMON_STATUSES,
      statusTransitions := IMPROVED_TRANSITIONS,
      requiredFieldsPerStatus :=
        [("ORDERED", ["source", "estimated_cost"]),
         ("RECEIVED", ["arrival_date", "actual_cost"]),
         ("NOTIFIED", ["notification_method", "notification_date"]),
         ("PAID", ["payment_method", "order_number"]),
         ("COMPLETED", ["completion_date"])] }),
   ("bulk_order",
    { possibleStatuses := COMMON_STATUSES,
      statusTransitions := IMPROVED_TRANSITIONS,
      requiredFieldsPerStatus :=
        [("ORDERED", ["ordered_by", "order_method", "estimated_arrival"]),
         ("RECEIVED", ["arrival_date"]),
         ("NOTIFIED", ["notification_method", "notification_date"]),
         ("PAID", ["payment_method", "order_number"]),
         ("COMPLETED", ["completion_date"])] }),
   ("personalization",
    { possibleStatuses := COMMON_STATUSES,
      statusTransitions := IMPROVED_TRANSITIONS,
      requiredFieldsPerStatus :=
        [("IN_PROGRESS", ["personalization_details", "estimated_completion"]),
         ("NOTIFIED", ["notification_method", "notification_date"]),
         ("PAID", ["payment_method", "payment_amount"]),
         ("COMPLETED", ["completion_date"])] })]

/-- The registry accessor of the spec's Type Registry: the allowed target
statuses for a type and current status.  Mirrors
`typeConfig.statusTransitions[currentStatus] || []` of the source: an
absent table entry reads as the empty list. -/
def getTransitions (requestType currentStatus : String) : List String :=
  match lookupObj REQUEST_TYPES requestType with
  | some typeConfig => (lookupObj typeConfig.statusTransitions currentStatus).getD []
  | none => []

/-- Whether a request type is a key of `REQUEST_TYPES`. -/
def isRegisteredType (requestType : String) : Bool :=
  (lookupObj REQUEST_TYPES requestType).isSome

/-- Whether the current status is a key of the type's transition table. -/
def hasTransitionEntry (requestType currentStatus : String) : Bool :=
  match lookupObj REQUEST_TYPES requestType with
  | some typeConfig => (lookupObj typeConfig.statusTransitions currentStatus).isSome
  | none => false

/-- `validateRequiredFieldsForType` from `unifiedEventLogger.js`: the
creation-time check.  It filters out every required field whose provided
value is falsy and reports all of them in one error. -/
def validateRequiredFieldsForType (requestType : String)
    (providedData : List (String × String)) : Except String Unit :=
  match lookupObj REQUIRED_FIELDS requestType with
  | none => .error ("Unknown request type: " ++ requestType)
  | some requiredFields =>
    let missingFields := requiredFields.filter (fun field => !truthy (lookupObj providedData field))
    if !missingFields.isEmpty then
      .error ("Missing required fields for " ++ requestType ++ ": "
        ++ String.intercalate ", " missingFields)
    else .ok ()

/-- `validateStatusTransition` from `unifiedEventLogger.js`: unknown types
throw; otherwise the target must be in
`statusTransitions[currentStatus] || []`. -/
def validateStatusTransition (requestType currentStatus newStatus : String) :
    Except String Unit :=
  match lookupObj REQUEST_TYPES requestType with
  | none => .error ("Unsupported request type: " ++ requestType)
  | some typeConfig =>
    let validTransitions := (lookupObj typeConfig.statusTransitions currentStatus).getD []
    if !validTransitions.contains newStatus then
      .error ("Invalid status transition from " ++ currentStatus ++ " to " ++ newStatus
        ++ " for " ++ requestType)
    else .ok ()

/-- `validateRequiredFields` from `unifiedEventLogger.js`: the per-status
check.  The source loops over the required fields of the target status and
throws at the FIRST field whose provided value is falsy. -/
def validateRequiredFields (requestType newStatus : String)
    (providedFields : List (String × String)) : Except String Unit :=
  match lookupObj REQUEST_TYPES requestType with
  | none => .ok ()
  | some typeConfig =>
    let requiredFields := (lookupObj typeConfig.requiredFieldsPerStatus newStatus).getD []
    match requiredFields.find? (fun field => !truthy (lookupObj providedFields field)) with
    | some field =>
      .error ("Field \"" ++ field ++ "\" is required for " ++ requestType
        ++ " to transition to " ++ newStatus)
    | none => .ok ()

/-! ## The stateful update operation -/

/-- A document of the MongoDB `requests` collection. -/
structure StoredRequest where
  requestId : String
  type : String
  status : String
  fields : List (String × String)
deriving Repr, DecidableEq

/-- A document of the MongoDB `events` collection.  The list order of
events in `SysState.events` is their insertion order, which is their
timestamp order. -/
structure Event where
  requestId : String
  requestType : String
  action : String
  previousStatus : String
  newStatus : String
  additionalMetadata : List (String × String)
deriving Repr, DecidableEq

/-- The persistent state `updateRequestStatus` touches: the `requests`
collection, the `events` collection, and the flat-file request logs
(abstracted to the set of `(requestType, requestId)` pairs whose id appears
in `<requestType>_requests.log`). -/
structure SysState where
  requests : List StoredRequest
  events : List Event
  fileLog : List (String × String)
deriving Repr, DecidableEq

/-- The argument record of `updateRequestStatus`. -/
structure UpdateInput where
  requestType : String
  requestId : String
  currentStatus : String
  newStatus : String
  additionalFields : List (String × String)
deriving Repr, DecidableEq

/-- `{ success: true, message }` / `{ success: false, error }`. -/
inductive UpdateResult where
  | success (message : String)
  | failure (error : String)
deriving Repr, DecidableEq

/-- `logEvent` from `unifiedEventLogger.js`, restricted to its persistent
effect: append one document to the `events` collection. -/
def logEvent (st : SysState) (ev : Event) : SysState :=
  { st with events := st.events ++ [ev] }

/-- JS object assignment `obj[k] = v` on a field bag. -/
def setField (fields : List (String × String)) (k v : String) :
    List (String × String) :=
  if fields.any (fun p => p.1 == k) then
    fields.map (fun p => if p.1 == k then (k, v) else p)
  else fields ++ [(k, v)]

/-- Apply every binding of `updates` to a field bag, as the
`for (const [key, value] of Object.entries(additionalFields))` loop of
`updateRequestStatus` does when building the `$set` document. -/
def setFields (fields updates : List (String × String)) :
    List (String × String) :=
  updates.foldl (fun acc kv => setField acc kv.1 kv.2) fields

/-- The value the JS assignment loop `obj[key] = value` over the bag's
bindings leaves at key `k`: the last binding wins; `none` when the bag
never binds `k`. -/
def lastVal (bag : List (String × String)) (k : String) : Option String :=
  bag.foldl (fun acc p => if p.1 == k then some p.2 else acc) none

/-- The bindings of a bag that land in document columns other than
`requestId`, `type` and `status` (those three columns are the structured
slots of `StoredRequest`; every other column lives in its `fields` bag). -/
def nonColumnBindings (bag : List (String × String)) : List (String × String) :=
  bag.filter (fun p => !(p.1 == "requestId" || p.1 == "type" || p.1 == "status"))

/-- MongoDB `updateOne({ requestId }, updateData)` of `updateRequestStatus`:
update the first document whose `requestId` matches.  The source builds
`updateData.$set` as `{ status: newStatus, updatedAt }` and then assigns
every binding of `additionalFields` over it (`updateData.$set[key] =
value`), so a binding named `status`, `requestId` or `type` overwrites
that document column, the last assignment winning; in particular the
stored status becomes the bag's `status` value when the bag binds one,
and `newStatus` only otherwise. -/
def updateFirst : List StoredRequest → UpdateInput → List StoredRequest
  | [], _ => []
  | r :: rest, input =>
    if r.requestId == input.requestId then
      { requestId := (lastVal input.additionalFields "requestId").getD r.requestId,
        type := (lastVal input.additionalFields "type").getD r.type,
        status := (lastVal input.additionalFields "status").getD input.newStatus,
        fields := setFields r.fields (nonColumnBindings input.additionalFields) } :: rest
    else r :: updateFirst rest input

/-- `updateRequestStatus` from `unifiedEventLogger.js`:
1. validate the status transition (failure returns the error, untouched state);
2. validate the required fields of the new status (likewise);
3. log a `STATUS_CHANGE` event — the source comments this step with
   "Log the event regardless of whether we can update the document";
4. `updateOne` on the `requests` collection; if no document matched, fall
   back to inserting a fresh document when the request id appears in the
   type's flat-file request log, and otherwise fail with "No request found".
   The fallback `newDoc` is built as `{ requestId, type, status: newStatus,
   ..., ...additionalFields }` with the spread LAST, so bag bindings named
   `requestId`, `type` or `status` override those columns of the inserted
   document, exactly as the `$set` loop does on the update path. -/
def updateRequestStatus (st : SysState) (input : UpdateInput) :
    SysState × UpdateResult :=
  match validateStatusTransition input.requestType input.currentStatus input.newStatus with
  | .error e => (st, .failure e)
  | .ok _ =>
    match validateRequiredFields input.requestType input.newStatus input.additionalFields with
    | .error e => (st, .failure e)
    | .ok _ =>
      let st1 := logEvent st
        { requestId := input.requestId, requestType := input.requestType,
          action := "STATUS_CHANGE", previousStatus := input.currentStatus,
          newStatus := input.newStatus, additionalMetadata := input.additionalFields }
      if st1.requests.any (fun r => r.requestId == input.requestId) then
        ({ st1 with requests := updateFirst st1.requests input },
         .success ("Request " ++ input.requestId ++ " status updated from "
           ++ input.currentStatus ++ " to " ++ input.newStatus))
      else if st1.fileLog.contains (input.requestType, input.requestId) then
        ({ st1 with requests := st1.requests ++
            [{ requestId := (lastVal input.additionalFields "requestId").getD input.requestId,
               type := (lastVal input.additionalFields "type").getD input.requestType,
               status := (lastVal input.additionalFields "status").getD input.newStatus,
               fields := setFields [] (nonColumnBindings input.additionalFields) }] },
         .success ("Created new entry for request " ++ input.requestId
           ++ " with status " ++ input.newStatus))
      else
        (st1, .failure ("No request found with ID: " ++ input.requestId))

/-- The events of one request, in timestamp order. -/
def eventsFor (events : List Event) (requestId : String) : List Event :=
  events.filter (fun e => e.requestId == requestId)

/-- Modelled from the spec: "the sequence of events for a request, replayed
in timestamp order, must reconstruct its current status (status is a fold
over events)" — the fold takes the `newStatus` of the latest
status-bearing event (`REQUEST_CREATED` or `STATUS_CHANGE`). -/
def replayStatus (events : List Event) : Option String :=
  events.foldl
    (fun acc e =>
      if e.action == "REQUEST_CREATED" || e.action == "STATUS_CHANGE" then some e.newStatus
      else acc)
    none

/-- The event-log/store consistency property claimed by the spec: every
request id occurring in the event log denotes a stored request whose
status is the replay of its events. -/
def eventsMatchStore (st : SysState) : Bool :=
  st.events.all (fun e =>
    st.requests.any (fun r =>
      r.requestId == e.requestId
        && some r.status == replayStatus (eventsFor st.events e.requestId)))

/-! ## Helper lemmas -/

/-- The six request types registered in `REQUEST_TYPES`. -/
theorem registered_type_eq (t : String) (h : isRegisteredType t = true) :
    t = "special_order" ∨ t = "book_hold" ∨ t = "backorder_request" ∨
    t = "out_of_print" ∨ t = "bulk_order" ∨ t = "personalization" := by
  unfold isRegisteredType REQUEST_TYPES at h
  simp only [lookupObj] at h
  split_ifs at h with h1 h2 h3 h4 h5 h6
  · exact Or.inl (beq_iff_eq.mp h1).symm
  · exact Or.inr (Or.inl (beq_iff_eq.mp h2).symm)
  · exact Or.inr (Or.inr (Or.inl (beq_iff_eq.mp h3).symm))
  · exact Or.inr (Or.inr (Or.inr (Or.inl (beq_iff_eq.mp h4).symm)))
  · exact Or.inr (Or.inr (Or.inr (Or.inr (Or.inl (beq_iff_eq.mp h5).symm))))
  · exact Or.inr (Or.inr (Or.inr (Or.inr (Or.inr (beq_iff_eq.mp h6).symm))))
  · simp at h

/-- When the target status is not among the allowed transitions,
`updateRequestStatus` returns the invalid-transition error and the state
unchanged. -/
theorem updateRequestStatus_invalid (st : SysState) (input : UpdateInput)
    (hreg : isRegisteredType input.requestType = true)
    (hno : (getTransitions input.requestType input.currentStatus).contains input.newStatus
      = false) :
    updateRequestStatus st input =
      (st, .failure ("Invalid status transition from " ++ input.currentStatus ++ " to "
        ++ input.newStatus ++ " for " ++ input.requestType)) := by
  unfold isRegisteredType at hreg
  unfold getTransitions at hno
  unfold updateRequestStatus validateStatusTransition
  cases h : lookupObj REQUEST_TYPES input.requestType with
  | none => rw [h] at hreg; simp at hreg
  | some cfg =>
    rw [h] at hno
    replace hno :
        ((lookupObj cfg.statusTransitions input.currentStatus).getD []).contains
          input.newStatus = false := hno
    have hno' :
        input.newStatus ∉ (lookupObj cfg.statusTransitions input.currentStatus).getD [] := by
      simpa using hno
    simp [hno']

/-- A current status with no entry in the transition table yields the empty
allowed-set. -/
theorem getTransitions_eq_nil_of_no_entry (t cur : String)
    (hent : hasTransitionEntry t cur = false) : getTransitions t cur = [] := by
  unfold hasTransitionEntry at hent
  unfold getTransitions
  cases h : lookupObj REQUEST_TYPES t with
  | none => rfl
  | some cfg =>
    rw [h] at hent
    replace hent : (lookupObj cfg.statusTransitions cur).isSome = false := hent
    have hnone : lookupObj cfg.statusTransitions cur = none := by simpa using hent
    show (lookupObj cfg.statusTransitions cur).getD [] = []
    rw [hnone]
    rfl

/-! ## Claims about the transition table -/

/-- C1: for every registered request type and every pair of statuses (A, B)
with B not in `statusTransitions[T][A]`, `updateRequestStatus` with
currentStatus A and newStatus B returns the invalid-transition error and
returns the state unchanged: no store write, no event append, the stored
status untouched. -/
theorem invalid_transition_rejected (st : SysState) (input : UpdateInput)
    (hreg : isRegisteredType input.requestType = true)
    (hno : input.newStatus ∉ getTransitions input.requestType input.currentStatus) :
    updateRequestStatus st input =
      (st, .failure ("Invalid status transition from " ++ input.currentStatus ++ " to "
        ++ input.newStatus ++ " for " ++ input.requestType)) :=
  updateRequestStatus_invalid st input hreg (by
    simpa using hno)

/-- Witness for C1: a `special_order` request may not jump from NEW to
PAID; the call fails and the state is returned unchanged. -/
theorem invalid_transition_rejected_witness :
    updateRequestStatus
      ⟨[⟨"REQ-7", "special_order", "NEW", []⟩], [], []⟩
      ⟨"special_order", "REQ-7", "NEW", "PAID", []⟩ =
      (⟨[⟨"REQ-7", "special_order", "NEW", []⟩], [], []⟩,
       .failure "Invalid status transition from NEW to PAID for special_order") :=
  invalid_transition_rejected
    ⟨[⟨"REQ-7", "special_order", "NEW", []⟩], [], []⟩
    ⟨"special_order", "REQ-7", "NEW", "PAID", []⟩
    (by decide) (by decide)

/-- C2: for every registered request type, COMPLETED and CANCELLED are
terminal: their allowed outgoing-transition set is empty, so every
transition call out of them fails for every target status and leaves the
state unchanged. -/
theorem terminal_status_rejects_all (st : SysState) (input : UpdateInput)
    (hreg : isRegisteredType input.requestType = true)
    (hterm : input.currentStatus = "COMPLETED" ∨ input.currentStatus = "CANCELLED") :
    getTransitions input.requestType input.currentStatus = [] ∧
    updateRequestStatus st input =
      (st, .failure ("Invalid status transition from " ++ input.currentStatus ++ " to "
        ++ input.newStatus ++ " for " ++ input.requestType)) := by
  have hempty : getTransitions input.requestType input.currentStatus = [] := by
    rcases registered_type_eq _ hreg with h | h | h | h | h | h <;>
      rcases hterm with h2 | h2 <;> rw [h, h2] <;> rfl
  exact ⟨hempty, updateRequestStatus_invalid st input hreg (by rw [hempty]; rfl)⟩

/-- Witness for C2: a COMPLETED `special_order` rejects a transition back
to NEW. -/
theorem terminal_status_rejects_all_witness :
    getTransitions "special_order" "COMPLETED" = [] ∧
    updateRequestStatus
      ⟨[⟨"REQ-8", "special_order", "COMPLETED", []⟩], [], []⟩
      ⟨"special_order", "REQ-8", "COMPLETED", "NEW", []⟩ =
      (⟨[⟨"REQ-8", "special_order", "COMPLETED", []⟩], [], []⟩,
       .failure "Invalid status transition from COMPLETED to NEW for special_order") :=
  terminal_status_rejects_all
    ⟨[⟨"REQ-8", "special_order", "COMPLETED", []⟩], [], []⟩
    ⟨"special_order", "REQ-8", "COMPLETED", "NEW", []⟩
    (by decide) (Or.inl rfl)

/-- C9: for every registered request type, a transition call whose asserted
current status is not a key of the type's transition table is rejected for
every target status (the absent entry reads as the empty allowed-set), and
the state is returned unchanged. -/
theorem absent_entry_rejects_all (st : SysState) (input : UpdateInput)
    (hreg : isRegisteredType input.requestType = true)
    (hent : hasTransitionEntry input.requestType input.currentStatus = false) :
    updateRequestStatus st input =
      (st, .failure ("Invalid status transition from " ++ input.currentStatus ++ " to "
        ++ input.newStatus ++ " for " ++ input.requestType)) :=
  updateRequestStatus_invalid st input hreg (by
    rw [getTransitions_eq_nil_of_no_entry _ _ hent]; rfl)

/-- Witness for C9: `book_hold` has no table entry for ORDERED (a status of
the common flow the reduced table omits), so ORDERED → RECEIVED is
rejected. -/
theorem absent_entry_rejects_all_witness :
    updateRequestStatus
      ⟨[⟨"REQ-9", "book_hold", "ORDERED", []⟩], [], []⟩
      ⟨"book_hold", "REQ-9", "ORDERED", "RECEIVED", []⟩ =
      (⟨[⟨"REQ-9", "book_hold", "ORDERED", []⟩], [], []⟩,
       .failure "Invalid status transition from ORDERED to RECEIVED for book_hold") :=
  absent_entry_rejects_all
    ⟨[⟨"REQ-9", "book_hold", "ORDERED", []⟩], [], []⟩
    ⟨"book_hold", "REQ-9", "ORDERED", "RECEIVED", []⟩
    (by decide) (by decide)

/-- `updateOne` on a collection containing a matching document yields a
document with the new status under the same id, provided the field bag
does not itself rebind the `status` or `requestId` column (the `$set`
loop would let such a binding override the column). -/
theorem updateFirst_exists (l : List StoredRequest) (input : UpdateInput)
    (h : l.any (fun r => r.requestId == input.requestId) = true)
    (hs : lastVal input.additionalFields "status" = none)
    (hrid : lastVal input.additionalFields "requestId" = none) :
    ∃ r, r ∈ updateFirst l input ∧ r.requestId = input.requestId ∧
      r.status = input.newStatus := by
  induction l with
  | nil => simp at h
  | cons a rest ih =>
    cases ha : (a.requestId == input.requestId) with
    | true =>
      refine ⟨{ requestId := (lastVal input.additionalFields "requestId").getD a.requestId,
                type := (lastVal input.additionalFields "type").getD a.type,
                status := (lastVal input.additionalFields "status").getD input.newStatus,
                fields := setFields a.fields (nonColumnBindings input.additionalFields) },
        ?_, ?_, ?_⟩
      · simp [updateFirst, ha]
      · rw [hrid]
        exact beq_iff_eq.mp ha
      · rw [hs]
        rfl
    | false =>
      have h' : rest.any (fun r => r.requestId == input.requestId) = true := by
        simpa [List.any_cons, ha] using h
      obtain ⟨r, hr, h1, h2⟩ := ih h'
      exact ⟨r, by simp [updateFirst, ha, hr], h1, h2⟩

set_option maxRecDepth 8192 in
/-- Evaluation of the per-status required-field check of `book_hold` for
target PAID: the source loop stops at the first falsy field, in the
configuration order `payment_method`, `order_number`. -/
theorem validateRequiredFields_book_hold_PAID (bag : List (String × String)) :
    validateRequiredFields "book_hold" "PAID" bag =
      (if truthy (lookupObj bag "payment_method") then
        if truthy (lookupObj bag "order_number") then .ok ()
        else .error "Field \"order_number\" is required for book_hold to transition to PAID"
      else .error "Field \"payment_method\" is required for book_hold to transition to PAID") := by
  have hreq : validateRequiredFields "book_hold" "PAID" bag =
      (match ["payment_method", "order_number"].find?
          (fun field => !truthy (lookupObj bag field)) with
        | some field =>
          Except.error ("Field \"" ++ field ++ "\" is required for " ++ "book_hold"
            ++ " to transition to " ++ "PAID")
        | none => Except.ok ()) := rfl
  rw [hreq]
  cases hpm : truthy (lookupObj bag "payment_method") <;>
    cases hon : truthy (lookupObj bag "order_number") <;>
      simp [List.find?, hpm, hon]

/-! ## Claim C3 (corrected): required-field gating of book_hold NEW → PAID -/

set_option maxRecDepth 100000 in
/-- Counterexample to C3 as stated: transitioning a `book_hold` request
from NEW to PAID with an empty field bag fails, but the error names only
`payment_method`, the first missing field — the string `order_number` does
not occur in the message, so the error does not identify every offending
field. -/
theorem book_hold_missing_fields_counterexample :
    updateRequestStatus
      ⟨[⟨"R1", "book_hold", "NEW", []⟩], [], []⟩
      ⟨"book_hold", "R1", "NEW", "PAID", []⟩ =
      (⟨[⟨"R1", "book_hold", "NEW", []⟩], [], []⟩,
       .failure "Field \"payment_method\" is required for book_hold to transition to PAID") ∧
    ¬ List.IsInfix ("order_number".toList)
        ("Field \"payment_method\" is required for book_hold to transition to PAID".toList) := by
  constructor
  · rfl
  · decide

/-- C3 as amended: the missing-field error of the NEW → PAID transition of
`book_hold` names only the first missing field in configuration order
(`payment_method` first, then `order_number`); supplying truthy values for
both fields, in a bag that does not itself rebind the `status` or
`requestId` document column (which the source's `$set` loop would let
override), makes the transition succeed and set the stored status to
PAID. -/
theorem book_hold_paid_required_fields (st : SysState) (id : String)
    (bag : List (String × String))
    (hfound : st.requests.any (fun r => r.requestId == id) = true)
    (hs : lastVal bag "status" = none)
    (hrid : lastVal bag "requestId" = none) :
    (truthy (lookupObj bag "payment_method") = false →
      updateRequestStatus st ⟨"book_hold", id, "NEW", "PAID", bag⟩ =
        (st, .failure "Field \"payment_method\" is required for book_hold to transition to PAID")) ∧
    (truthy (lookupObj bag "payment_method") = true →
      truthy (lookupObj bag "order_number") = false →
      updateRequestStatus st ⟨"book_hold", id, "NEW", "PAID", bag⟩ =
        (st, .failure "Field \"order_number\" is required for book_hold to transition to PAID")) ∧
    (truthy (lookupObj bag "payment_method") = true →
      truthy (lookupObj bag "order_number") = true →
      (∃ msg, (updateRequestStatus st ⟨"book_hold", id, "NEW", "PAID", bag⟩).2 =
        .success msg) ∧
      ∃ r, r ∈ (updateRequestStatus st ⟨"book_hold", id, "NEW", "PAID", bag⟩).1.requests ∧
        r.requestId = id ∧ r.status = "PAID") := by
  have hok : validateStatusTransition "book_hold" "NEW" "PAID" = .ok () := rfl
  refine ⟨?_, ?_, ?_⟩
  · intro hpm
    simp [updateRequestStatus, hok, validateRequiredFields_book_hold_PAID, hpm]
  · intro hpm hon
    simp [updateRequestStatus, hok, validateRequiredFields_book_hold_PAID, hpm, hon]
  · intro hpm hon
    have hex : ∃ x ∈ st.requests, x.requestId = id := by simpa using hfound
    constructor
    · refine ⟨"Request " ++ id ++ " status updated from " ++ "NEW" ++ " to " ++ "PAID", ?_⟩
      simp [updateRequestStatus, hok, validateRequiredFields_book_hold_PAID, hpm, hon,
        hex, logEvent]
    · have := updateFirst_exists st.requests ⟨"book_hold", id, "NEW", "PAID", bag⟩
        hfound hs hrid
      obtain ⟨r, hr, h1, h2⟩ := this
      refine ⟨r, ?_, h1, h2⟩
      simp [updateRequestStatus, hok, validateRequiredFields_book_hold_PAID, hpm, hon,
        hex, logEvent]
      exact hr

/-- Witness for the amended C3: the concrete book_hold request `R1`, with
`payment_method` and a valid order number supplied, moves to PAID; with an
empty bag the failure names `payment_method`. -/
theorem book_hold_paid_required_fields_witness :
    (∃ msg, (updateRequestStatus
        ⟨[⟨"R1", "book_hold", "NEW", []⟩], [], []⟩
        ⟨"book_hold", "R1", "NEW", "PAID",
          [("payment_method", "card"), ("order_number", "12345")]⟩).2 =
      .success msg) ∧
    ∃ r, r ∈ (updateRequestStatus
        ⟨[⟨"R1", "book_hold", "NEW", []⟩], [], []⟩
        ⟨"book_hold", "R1", "NEW", "PAID",
          [("payment_method", "card"), ("order_number", "12345")]⟩).1.requests ∧
      r.requestId = "R1" ∧ r.status = "PAID" :=
  (book_hold_paid_required_fields
    ⟨[⟨"R1", "book_hold", "NEW", []⟩], [], []⟩ "R1"
    [("payment_method", "card"), ("order_number", "12345")]
    (by decide) (by decide) (by decide)).2.2 (by decide) (by decide)

/-- Looking up the erased key finds nothing. -/
theorem lookupObj_eraseKey_self (bag : List (String × String)) (f : String) :
    lookupObj (eraseKey bag f) f = none := by
  induction bag with
  | nil => rfl
  | cons p rest ih =>
    cases hp : (p.1 == f) with
    | true => simpa [eraseKey, List.filter_cons, hp] using ih
    | false =>
      simp only [eraseKey, List.filter_cons, hp, Bool.not_false, if_pos, lookupObj]
      simpa [eraseKey] using ih

/-- Erasing one key leaves the lookup of every other key unchanged. -/
theorem lookupObj_eraseKey_ne (bag : List (String × String)) (f g : String)
    (h : (f == g) = false) :
    lookupObj (eraseKey bag f) g = lookupObj bag g := by
  induction bag with
  | nil => rfl
  | cons p rest ih =>
    cases hp : (p.1 == f) with
    | true =>
      have hpg : (p.1 == g) = false := by
        have h1 := beq_iff_eq.mp hp
        rw [h1]
        exact h
      simp only [eraseKey, List.filter_cons, hp, Bool.not_true, if_neg, lookupObj, hpg,
        Bool.false_eq_true, ↓reduceIte]
      simpa [eraseKey, lookupObj, hpg] using ih
    | false =>
      simp only [eraseKey, List.filter_cons, hp, Bool.not_false, if_pos, lookupObj]
      cases hg : (p.1 == g) with
      | true => simp [hg]
      | false => simpa [hg, eraseKey] using ih

/-- The field bag with an empty-string binding for `f` in front and the
bag with `f` erased agree on the truthiness of every lookup. -/
theorem truthy_shadow (bag : List (String × String)) (f g : String) :
    truthy (lookupObj ((f, "") :: bag) g) = truthy (lookupObj (eraseKey bag f) g) := by
  cases h : (f == g) with
  | true =>
    have hfg := beq_iff_eq.mp h
    subst hfg
    simp [lookupObj, lookupObj_eraseKey_self, truthy]
    rfl
  | false =>
    simp [lookupObj, h, lookupObj_eraseKey_ne bag f g h]

/-- `find?` only depends on the predicate's values on the list. -/
theorem find?_congr_on (l : List String) (p q : String → Bool)
    (h : ∀ x ∈ l, p x = q x) : l.find? p = l.find? q := by
  induction l with
  | nil => rfl
  | cons a rest ih =>
    have ha : p a = q a := h a (List.mem_cons_self a rest)
    have hrest : rest.find? p = rest.find? q :=
      ih (fun x hx => h x (List.mem_cons_of_mem a hx))
    cases hq : q a with
    | true =>
      rw [List.find?_cons_of_pos rest (by rw [ha, hq]), List.find?_cons_of_pos rest hq]
    | false =>
      rw [List.find?_cons_of_neg rest (by rw [ha, hq]; exact Bool.false_ne_true),
        List.find?_cons_of_neg rest (by rw [hq]; exact Bool.false_ne_true), hrest]

/-! ## Claim C10: empty-string field values count as absent -/

/-- C10: in the creation-time required-field check and in the per-status
required-field check, a field bound to the empty string (the falsy string
value) behaves exactly as if the field were absent from the bag: both
validators return the identical result — in particular the identical
missing-field error — for a bag carrying `(f, "")` and for the bag with
`f` removed. -/
theorem falsy_field_equals_absent (rt ns f : String) (bag : List (String × String)) :
    validateRequiredFieldsForType rt ((f, "") :: bag) =
      validateRequiredFieldsForType rt (eraseKey bag f) ∧
    validateRequiredFields rt ns ((f, "") :: bag) =
      validateRequiredFields rt ns (eraseKey bag f) := by
  have hpt : ∀ g, truthy (lookupObj ((f, "") :: bag) g) =
      truthy (lookupObj (eraseKey bag f) g) := truthy_shadow bag f
  constructor
  · unfold validateRequiredFieldsForType
    cases lookupObj REQUIRED_FIELDS rt with
    | none => rfl
    | some requiredFields =>
      have hfil : requiredFields.filter
            (fun field => !truthy (lookupObj ((f, "") :: bag) field)) =
          requiredFields.filter
            (fun field => !truthy (lookupObj (eraseKey bag f) field)) :=
        List.filter_congr (fun x _ => by rw [hpt x])
      simp only [hfil]
  · unfold validateRequiredFields
    cases lookupObj REQUEST_TYPES rt with
    | none => rfl
    | some cfg =>
      have hfind : ((lookupObj cfg.requiredFieldsPerStatus ns).getD []).find?
            (fun field => !truthy (lookupObj ((f, "") :: bag) field)) =
          ((lookupObj cfg.requiredFieldsPerStatus ns).getD []).find?
            (fun field => !truthy (lookupObj (eraseKey bag f) field)) :=
        find?_congr_on _ _ _ (fun x _ => by rw [hpt x])
      simp only [hfind]

/-- Appending a STATUS_CHANGE event makes its `newStatus` the replayed
status. -/
theorem replayStatus_append_statusChange (l : List Event) (ev : Event)
    (hact : ev.action = "STATUS_CHANGE") :
    replayStatus (l ++ [ev]) = some ev.newStatus := by
  unfold replayStatus
  rw [List.foldl_append]
  simp [hact]

/-- Appending an event of the request keeps it in the request's event
sequence, at the end. -/
theorem eventsFor_append_own (l : List Event) (ev : Event) (id : String)
    (hid : ev.requestId = id) :
    eventsFor (l ++ [ev]) id = eventsFor l id ++ [ev] := by
  unfold eventsFor
  rw [List.filter_append]
  simp [hid]

/-! ## Claim C4 (corrected): replaying events against the stored status -/

set_option maxRecDepth 100000 in
/-- Counterexample to C4 as stated: `updateRequestStatus` logs the
STATUS_CHANGE event before touching the `requests` collection (the source
comments the call with "Log the event regardless of whether we can update
the document").  Starting from an empty consistent state, an update of a
request that exists nowhere fails and writes no request document, yet the
STATUS_CHANGE event is appended — a STATUS_CHANGE event is recorded for an
update that was never applied to the store, and replaying the log no
longer reconstructs any stored status. -/
theorem status_replay_counterexample :
    eventsMatchStore ⟨[], [], []⟩ = true ∧
    updateRequestStatus ⟨[], [], []⟩
        ⟨"special_order", "REQ-1", "NEW", "ORDERED",
          [("ordered_by", "a"), ("order_method", "b"), ("estimated_arrival", "c")]⟩ =
      (⟨[],
        [⟨"REQ-1", "special_order", "STATUS_CHANGE", "NEW", "ORDERED",
          [("ordered_by", "a"), ("order_method", "b"), ("estimated_arrival", "c")]⟩],
        []⟩,
       .failure "No request found with ID: REQ-1") ∧
    eventsMatchStore
      (updateRequestStatus ⟨[], [], []⟩
        ⟨"special_order", "REQ-1", "NEW", "ORDERED",
          [("ordered_by", "a"), ("order_method", "b"), ("estimated_arrival", "c")]⟩).1
      = false := by
  exact ⟨rfl, rfl, rfl⟩

/-- C4 as amended: after a SUCCESSFUL `updateRequestStatus` call whose
field bag does not itself rebind the `status` or `requestId` document
column (the `$set` loop on the update path and the trailing
`...additionalFields` spread of the fallback insert would let such a
binding overwrite the column, leaving a stored status that differs from
the logged event), the invariant holds for the updated request: the store
contains a document with the request's id whose status is the new status,
and replaying the request's events in timestamp order yields that same
status (the appended STATUS_CHANGE event is the last event of the
request).  For failed calls the event may still have been appended
without any store write, as the counterexample shows. -/
theorem status_is_replay_after_success (st : SysState) (input : UpdateInput)
    (msg : String)
    (hs : lastVal input.additionalFields "status" = none)
    (hrid : lastVal input.additionalFields "requestId" = none)
    (h : (updateRequestStatus st input).2 = .success msg) :
    ∃ r, r ∈ (updateRequestStatus st input).1.requests ∧
      r.requestId = input.requestId ∧ r.status = input.newStatus ∧
      replayStatus
        (eventsFor (updateRequestStatus st input).1.events input.requestId) =
        some input.newStatus := by
  unfold updateRequestStatus at h ⊢
  cases h1 : validateStatusTransition input.requestType input.currentStatus input.newStatus with
  | error e => rw [h1] at h; simp at h
  | ok u =>
    rw [h1] at h
    cases h2 : validateRequiredFields input.requestType input.newStatus
        input.additionalFields with
    | error e => rw [h2] at h; simp at h
    | ok u2 =>
      rw [h2] at h
      dsimp only [logEvent] at h ⊢
      split at h
      · rename_i hcond
        simp only [hcond, ↓reduceIte]
        obtain ⟨r, hr, hid, hst⟩ := updateFirst_exists st.requests input hcond hs hrid
        refine ⟨r, hr, hid, hst, ?_⟩
        show replayStatus (eventsFor (st.events ++
          [⟨input.requestId, input.requestType, "STATUS_CHANGE", input.currentStatus,
            input.newStatus, input.additionalFields⟩]) input.requestId) =
          some input.newStatus
        rw [eventsFor_append_own _ _ _ rfl, replayStatus_append_statusChange _ _ rfl]
      · rename_i hcond
        split at h
        · rename_i hcond2
          simp only [hcond, hcond2, ↓reduceIte]
          refine ⟨⟨(lastVal input.additionalFields "requestId").getD input.requestId,
            (lastVal input.additionalFields "type").getD input.requestType,
            (lastVal input.additionalFields "status").getD input.newStatus,
            setFields [] (nonColumnBindings input.additionalFields)⟩, ?_, ?_, ?_, ?_⟩
          · exact List.mem_append_right _ (by simp)
          · rw [hrid]
            rfl
          · rw [hs]
            rfl
          · show replayStatus (eventsFor (st.events ++
              [⟨input.requestId, input.requestType, "STATUS_CHANGE", input.currentStatus,
                input.newStatus, input.additionalFields⟩]) input.requestId) =
              some input.newStatus
            rw [eventsFor_append_own _ _ _ rfl, replayStatus_append_statusChange _ _ rfl]
        · rename_i hcond2
          simp at h

/-- Witness for the amended C4: a stored `special_order` request moved
NEW → ORDERED; afterwards the store holds it as ORDERED and replaying its
events yields ORDERED. -/
theorem status_is_replay_after_success_witness :
    ∃ r, r ∈ (updateRequestStatus
        ⟨[⟨"R2", "special_order", "NEW", []⟩], [], []⟩
        ⟨"special_order", "R2", "NEW", "ORDERED",
          [("ordered_by", "a"), ("order_method", "b"), ("estimated_arrival", "c")]⟩).1.requests ∧
      r.requestId = "R2" ∧ r.status = "ORDERED" ∧
      replayStatus
        (eventsFor (updateRequestStatus
          ⟨[⟨"R2", "special_order", "NEW", []⟩], [], []⟩
          ⟨"special_order", "R2", "NEW", "ORDERED",
            [("ordered_by", "a"), ("order_method", "b"), ("estimated_arrival", "c")]⟩).1.events
          "R2") = some "ORDERED" :=
  status_is_replay_after_success
    ⟨[⟨"R2", "special_order", "NEW", []⟩], [], []⟩
    ⟨"special_order", "R2", "NEW", "ORDERED",
      [("ordered_by", "a"), ("order_method", "b"), ("estimated_arrival", "c")]⟩
    "Request R2 status updated from NEW to ORDERED" (by decide) (by decide) (by rfl)

/-! ## Claim C5 (code bug): ISBN-10 inputs ending in X skip the checksum -/

set_option maxRecDepth 100000 in
/-- C5 evaluation: a cleaned input of nine digits followed by `X` fails
the all-digit test of `validateISBN`, so it is accepted unconditionally as
a custom SKU and `isValidISBN10` — which does handle `X` as the value
10 — never runs.  `000000000X` has an invalid ISBN-10 checksum
(0 + 10 = 10, not divisible by 11) yet `validateISBN` declares it valid;
`123456789X` is accepted as the claim and the repository's ISBN
documentation expect, but through the custom-SKU branch rather than the
checksum.  All-digit ISBN-10 inputs are checksum-validated as claimed. -/
theorem isbn10_x_bypasses_checksum :
    validateISBN ("000000000X".toList) = { valid := true, error := none } ∧
    isValidISBN10 ("000000000X".toList) = false ∧
    validateISBN ("123456789X".toList) = { valid := true, error := none } ∧
    isValidISBN10 ("123456789X".toList) = true ∧
    validateISBN ("0306406152".toList) = { valid := true, error := none } ∧
    validateISBN ("0306406153".toList) =
      { valid := false, error := some "Invalid ISBN-10 checksum" } :=
  ⟨rfl, rfl, rfl, rfl, rfl, rfl⟩

/-! ## Claim C7 (code bug): date boundaries of the two submission paths -/

/-- C7 evaluation (day numbers; 100 stands for today): on the
`required_fields_submission` path an arrival date equal to today is
accepted and tomorrow rejected, and an estimated arrival equal to
tomorrow is accepted and today rejected — as claimed.  On the
`mark_as_ordered_submission` path, however, an estimated arrival equal to
today is ACCEPTED, because that handler computes its `tomorrow` as
`today.getDate() + 0`, contradicting the claim and the handler's own
error message "Estimated arrival date must be tomorrow or later". -/
theorem date_boundary_eval :
    rfArrivalDateError 100 100 = none ∧
    rfArrivalDateError 101 100 =
      some "Arrival date must be today or earlier, not a future date" ∧
    rfEstimatedArrivalError 101 100 = none ∧
    rfEstimatedArrivalError 100 100 =
      some "Estimated arrival date must be tomorrow or later" ∧
    maoEstimatedArrivalError 100 100 = none ∧
    maoEstimatedArrivalError 99 100 =
      some "Estimated arrival date must be tomorrow or later" := by
  refine ⟨?_, ?_, ?_, ?_, ?_, ?_⟩ <;> decide

/-! ## Claim C8: order-number shapes -/

/-- Modelled from the spec's wording of the accepted order-number shapes:
the letter `D` followed by one or more digits; exactly 5 digits; or the
digit `1` followed by 5 or more further digits. -/
def orderNumberShapeSpec (l : List Char) : Prop :=
  (∃ ds, l = 'D' :: ds ∧ ds ≠ [] ∧ ∀ c ∈ ds, c.isDigit = true) ∨
  (l.length = 5 ∧ ∀ c ∈ l, c.isDigit = true) ∨
  (∃ ds, l = '1' :: ds ∧ 5 ≤ ds.length ∧ ∀ c ∈ ds, c.isDigit = true)

/-- The draft-order matcher recognises exactly the spec's first shape. -/
theorem matchesDraftOrder_iff (l : List Char) :
    matchesDraftOrder l = true ↔
      ∃ ds, l = 'D' :: ds ∧ ds ≠ [] ∧ ∀ c ∈ ds, c.isDigit = true := by
  cases l with
  | nil => simp [matchesDraftOrder]
  | cons a t =>
    simp [matchesDraftOrder, List.all_eq_true, List.isEmpty_iff, List.cons.injEq]
    constructor
    · rintro ⟨h0, h1, h2⟩
      exact ⟨t, ⟨h0, rfl⟩, h1, h2⟩
    · rintro ⟨ds, ⟨h0, rfl⟩, h1, h2⟩
      exact ⟨h0, h1, h2⟩

/-- The five-digit matcher recognises exactly the spec's second shape. -/
theorem matchesFiveDigits_iff (l : List Char) :
    matchesFiveDigits l = true ↔ l.length = 5 ∧ ∀ c ∈ l, c.isDigit = true := by
  simp [matchesFiveDigits, List.all_eq_true]

/-- The extended-order matcher recognises exactly the spec's third shape. -/
theorem matchesExtendedOrder_iff (l : List Char) :
    matchesExtendedOrder l = true ↔
      ∃ ds, l = '1' :: ds ∧ 5 ≤ ds.length ∧ ∀ c ∈ ds, c.isDigit = true := by
  cases l with
  | nil => simp [matchesExtendedOrder]
  | cons a t =>
    simp [matchesExtendedOrder, List.all_eq_true, List.cons.injEq]
    constructor
    · rintro ⟨h0, h1, h2⟩
      exact ⟨t, ⟨h0, rfl⟩, h1, h2⟩
    · rintro ⟨ds, ⟨h0, rfl⟩, h1, h2⟩
      exact ⟨h0, h1, h2⟩

/-- C8: for every input string, `validateOrderNumber` accepts exactly the
inputs whose space-stripped form has one of the three spec shapes (draft
`D` + digits, exactly five digits, or `1` followed by at least five more
digits), and every rejected input gets the error message naming all three
accepted shapes. -/
theorem order_number_shapes (s : List Char) :
    ((validateOrderNumber s).valid = true ↔
      orderNumberShapeSpec (s.filter (fun c => !isJsSpace c))) ∧
    ((validateOrderNumber s).valid = false →
      (validateOrderNumber s).error =
        some "Order number must be either: 5 digits, more than 5 digits starting with '1', or start with 'D' followed by numbers") := by
  unfold validateOrderNumber orderNumberShapeSpec
  generalize (s.filter (fun c => !isJsSpace c)) = c
  cases hd : matchesDraftOrder c with
  | true =>
    rw [if_pos hd]
    exact ⟨iff_of_true rfl (Or.inl ((matchesDraftOrder_iff c).mp hd)),
      fun hcon => absurd hcon (by simp)⟩
  | false =>
    cases h5 : matchesFiveDigits c with
    | true =>
      rw [if_neg (by simp [hd]), if_pos h5]
      exact ⟨iff_of_true rfl (Or.inr (Or.inl ((matchesFiveDigits_iff c).mp h5))),
        fun hcon => absurd hcon (by simp)⟩
    | false =>
      cases hext : matchesExtendedOrder c with
      | true =>
        rw [if_neg (by simp [hd]), if_neg (by simp [h5]), if_pos hext]
        exact ⟨iff_of_true rfl (Or.inr (Or.inr ((matchesExtendedOrder_iff c).mp hext))),
          fun hcon => absurd hcon (by simp)⟩
      | false =>
        rw [if_neg (by simp [hd]), if_neg (by simp [h5]), if_neg (by simp [hext])]
        refine ⟨iff_of_false (by simp) ?_, fun _ => rfl⟩
        rintro (hsh | hsh | hsh)
        · exact absurd ((matchesDraftOrder_iff c).mpr hsh) (by simp [hd])
        · exact absurd ((matchesFiveDigits_iff c).mpr hsh) (by simp [h5])
        · exact absurd ((matchesExtendedOrder_iff c).mpr hsh) (by simp [hext])

/-- Witness for C8 at the spec's examples: `12345`, `123456`, `100001`
and `D9876543` are valid, `123` and `A1234` are invalid with the
three-shape error message. -/
theorem order_number_shapes_witness :
    (validateOrderNumber ("12345".toList)).valid = true ∧
    (validateOrderNumber ("123456".toList)).valid = true ∧
    (validateOrderNumber ("100001".toList)).valid = true ∧
    (validateOrderNumber ("D9876543".toList)).valid = true ∧
    (validateOrderNumber ("123".toList)).valid = false ∧
    (validateOrderNumber ("123".toList)).error =
      some "Order number must be either: 5 digits, more than 5 digits starting with '1', or start with 'D' followed by numbers" ∧
    (validateOrderNumber ("A1234".toList)).error =
      some "Order number must be either: 5 digits, more than 5 digits starting with '1', or start with 'D' followed by numbers" :=
  ⟨(order_number_shapes ("12345".toList)).1.mpr (Or.inr (Or.inl (by decide))),
   (order_number_shapes ("123456".toList)).1.mpr
     (Or.inr (Or.inr ⟨['2', '3', '4', '5', '6'], by decide⟩)),
   (order_number_shapes ("100001".toList)).1.mpr
     (Or.inr (Or.inr ⟨['0', '0', '0', '0', '1'], by decide⟩)),
   (order_number_shapes ("D9876543".toList)).1.mpr
     (Or.inl ⟨['9', '8', '7', '6', '5', '4', '3'], by decide⟩),
   by decide,
   (order_number_shapes ("123".toList)).2 (by decide),
   (order_number_shapes ("A1234".toList)).2 (by decide)⟩

/-! ## Claim C6: ISBN-13 validation -/

/-- Modelled from the spec: the ISBN-13 weighted sum "weights alternating
1, 3" over a digit sequence. -/
def altSum13 : List Nat → Nat
  | d :: e :: rest => d + 3 * e + altSum13 rest
  | [d] => d
  | [] => 0

/-- Modelled from the spec: an ISBN-13 "must start with `978` or `979`". -/
def isbn13SpecPrefix (c : List Char) : Prop :=
  c.take 3 = ['9', '7', '8'] ∨ c.take 3 = ['9', '7', '9']

/-- Modelled from the spec: "check digit = (10 − sum mod 10) mod 10; digit
13 must equal this", with the sum taken over the first 12 digits. -/
def isbn13SpecCheck (c : List Char) : Prop :=
  (c.map digitVal).getD 12 0 = (10 - altSum13 ((c.map digitVal).take 12) % 10) % 10

/-- The prefix test of `validateISBN` holds exactly for the spec's 978/979
prefixes. -/
theorem isbn13_prefix_bool (c : List Char) :
    ((['9', '7', '8'].isPrefixOf c || ['9', '7', '9'].isPrefixOf c) = true) ↔
      isbn13SpecPrefix c := by
  rw [Bool.or_eq_true, List.isPrefixOf_iff_prefix, List.isPrefixOf_iff_prefix,
    List.prefix_iff_eq_take, List.prefix_iff_eq_take]
  unfold isbn13SpecPrefix
  constructor
  · rintro (h | h)
    · exact Or.inl h.symm
    · exact Or.inr h.symm
  · rintro (h | h)
    · exact Or.inl h.symm
    · exact Or.inr h.symm

/-- On a 13-character input, the index-loop checksum of `isValidISBN13`
coincides with the spec's alternating-weight formulation. -/
theorem isbn13_checksum_bool (c : List Char) (hlen : c.length = 13) :
    (isValidISBN13 c = true) ↔ isbn13SpecCheck c := by
  obtain ⟨d0, c, rfl⟩ := List.exists_of_length_succ c hlen
  replace hlen : c.length = 12 := by simp only [List.length_cons] at hlen; omega
  obtain ⟨d1, c, rfl⟩ := List.exists_of_length_succ c hlen
  replace hlen : c.length = 11 := by simp only [List.length_cons] at hlen; omega
  obtain ⟨d2, c, rfl⟩ := List.exists_of_length_succ c hlen
  replace hlen : c.length = 10 := by simp only [List.length_cons] at hlen; omega
  obtain ⟨d3, c, rfl⟩ := List.exists_of_length_succ c hlen
  replace hlen : c.length = 9 := by simp only [List.length_cons] at hlen; omega
  obtain ⟨d4, c, rfl⟩ := List.exists_of_length_succ c hlen
  replace hlen : c.length = 8 := by simp only [List.length_cons] at hlen; omega
  obtain ⟨d5, c, rfl⟩ := List.exists_of_length_succ c hlen
  replace hlen : c.length = 7 := by simp only [List.length_cons] at hlen; omega
  obtain ⟨d6, c, rfl⟩ := List.exists_of_length_succ c hlen
  replace hlen : c.length = 6 := by simp only [List.length_cons] at hlen; omega
  obtain ⟨d7, c, rfl⟩ := List.exists_of_length_succ c hlen
  replace hlen : c.length = 5 := by simp only [List.length_cons] at hlen; omega
  obtain ⟨d8, c, rfl⟩ := List.exists_of_length_succ c hlen
  replace hlen : c.length = 4 := by simp only [List.length_cons] at hlen; omega
  obtain ⟨d9, c, rfl⟩ := List.exists_of_length_succ c hlen
  replace hlen : c.length = 3 := by simp only [List.length_cons] at hlen; omega
  obtain ⟨d10, c, rfl⟩ := List.exists_of_length_succ c hlen
  replace hlen : c.length = 2 := by simp only [List.length_cons] at hlen; omega
  obtain ⟨d11, c, rfl⟩ := List.exists_of_length_succ c hlen
  replace hlen : c.length = 1 := by simp only [List.length_cons] at hlen; omega
  obtain ⟨d12, c, rfl⟩ := List.exists_of_length_succ c hlen
  replace hlen : c.length = 0 := by simp only [List.length_cons] at hlen; omega
  rw [List.length_eq_zero] at hlen
  subst hlen
  simp [isValidISBN13, isbn13SpecCheck, List.range_succ, altSum13, List.getD]
  constructor <;> intro h <;> omega

/-- C6: for every input whose cleaned form is exactly 13 digits,
`validateISBN` accepts if and only if the string starts with 978 or 979
and the 13th digit equals the spec's alternating-weight ISBN-13 check
digit; a wrong prefix yields the prefix error, and a correct prefix with a
wrong check digit yields the checksum error. -/
theorem isbn13_validation (s : List Char)
    (hdig : (cleanISBNChars s).all Char.isDigit = true)
    (hlen : (cleanISBNChars s).length = 13) :
    ((validateISBN s).valid = true ↔
      (isbn13SpecPrefix (cleanISBNChars s) ∧ isbn13SpecCheck (cleanISBNChars s))) ∧
    (¬ isbn13SpecPrefix (cleanISBNChars s) →
      validateISBN s = ⟨false, some "ISBN-13 must start with 978 or 979"⟩) ∧
    (isbn13SpecPrefix (cleanISBNChars s) → ¬ isbn13SpecCheck (cleanISBNChars s) →
      validateISBN s = ⟨false, some "Invalid ISBN-13 checksum"⟩) := by
  have hpre := isbn13_prefix_bool (cleanISBNChars s)
  have hck := isbn13_checksum_bool (cleanISBNChars s) hlen
  have hne : ¬ ((cleanISBNChars s).isEmpty = true) := by
    simp only [List.isEmpty_iff]
    intro h
    rw [h] at hlen
    simp at hlen
  have hl13 : (((cleanISBNChars s).length == 13) = true) := by simp [hlen]
  unfold validateISBN
  rw [if_neg hne, if_pos hdig, if_pos hl13]
  by_cases hp : isbn13SpecPrefix (cleanISBNChars s)
  · have hpb : ((['9', '7', '8'].isPrefixOf (cleanISBNChars s) ||
        ['9', '7', '9'].isPrefixOf (cleanISBNChars s))) = true := hpre.mpr hp
    rw [if_neg (by simp [hpb])]
    by_cases hq : isbn13SpecCheck (cleanISBNChars s)
    · have hqb : isValidISBN13 (cleanISBNChars s) = true := hck.mpr hq
      rw [if_neg (by simp [hqb])]
      exact ⟨iff_of_true rfl ⟨hp, hq⟩, fun hcon => absurd hp hcon,
        fun _ hcon => absurd hq hcon⟩
    · have hqb : isValidISBN13 (cleanISBNChars s) = false := by
        rw [← Bool.not_eq_true, hck]
        exact hq
      rw [if_pos (by simp [hqb])]
      refine ⟨iff_of_false (by simp) (fun hcon => absurd hcon.2 hq), ?_, fun _ _ => rfl⟩
      intro hcon
      exact absurd hp hcon
  · have hpb : ((['9', '7', '8'].isPrefixOf (cleanISBNChars s) ||
        ['9', '7', '9'].isPrefixOf (cleanISBNChars s))) = false := by
      rw [← Bool.not_eq_true, hpre]
      exact hp
    rw [if_pos (by simp [hpb])]
    refine ⟨iff_of_false (by simp) (fun hcon => absurd hcon.1 hp), fun _ => rfl, ?_⟩
    intro hcon
    exact absurd hcon hp

/-- Witness for C6 at the spec's examples: `9780306406157` is valid,
`9780306406158` fails with the checksum error, and `1234567890123` fails
with the prefix error. -/
theorem isbn13_validation_witness :
    (validateISBN ("9780306406157".toList)).valid = true ∧
    validateISBN ("9780306406158".toList) =
      ⟨false, some "Invalid ISBN-13 checksum"⟩ ∧
    validateISBN ("1234567890123".toList) =
      ⟨false, some "ISBN-13 must start with 978 or 979"⟩ :=
  ⟨(isbn13_validation ("9780306406157".toList) (by decide) (by decide)).1.mpr
     ⟨Or.inl (by decide), by unfold isbn13SpecCheck; decide⟩,
   (isbn13_validation ("9780306406158".toList) (by decide) (by decide)).2.2
     (Or.inl (by decide)) (by unfold isbn13SpecCheck; decide),
   (isbn13_validation ("1234567890123".toList) (by decide) (by decide)).2.1
     (by unfold isbn13SpecPrefix; decide)⟩

end RequestMgmt
